import Mathlib

/-!
Verification of the standard-rag repository (frontend client plus the
spec-described ingestion/retrieval pipeline).

The frontend source under src/frontend and src/unnamed is embedded
directly; the backend pipeline (Ingestion Pipeline, Retrieval Engine,
Answer Synthesizer) is not present in the repository source, so those
components are modelled from the specification, as marked on each
definition.
-/

namespace StandardRag

/-! ## Session identifiers (src/frontend/lib/session.ts)

`generateUUID` fills the template string with hex digits:
each `x` becomes `r` (a random integer in 0..15, from
`(Math.random() * 16) | 0`) rendered in hex, each `y` becomes
`(r & 0x3) | 0x8` rendered in hex.  Randomness is modelled as a stream
`r : Nat → Fin 16` of the successive draws. -/

/-- `v.toString(16)` for a single value below 16: one lowercase hex digit. -/
def hexDigit (n : Nat) : Char := Nat.digitChar n

/-- The `y` branch of the replacement callback: `(r & 0x3) | 0x8`. -/
def variantVal (n : Nat) : Nat := (n &&& 3) ||| 8

def uuidTemplate : List Char := "xxxxxxxx-xxxx-4xxx-yxxx-xxxxxxxxxxxx".toList

/-- The `template.replace(/[xy]/g, ...)` call: each `x` or `y` consumes the
next random draw; other characters are copied unchanged. -/
def replaceXY : List Char → (Nat → Fin 16) → Nat → List Char
  | [], _, _ => []
  | c :: cs, r, k =>
    if c = 'x' then hexDigit (r k).val :: replaceXY cs r (k + 1)
    else if c = 'y' then hexDigit (variantVal (r k).val) :: replaceXY cs r (k + 1)
    else c :: replaceXY cs r k

def generateUUID (r : Nat → Fin 16) : String := String.mk (replaceXY uuidTemplate r 0)

/-- Browser context: whether `window` is defined, and the
`localStorage` slot for the session key. -/
structure Browser where
  hasWindow : Bool
  stored : Option String
  deriving DecidableEq, Repr

/-- `getSessionId`: returns `""` during SSR; otherwise reads localStorage,
and on a missing or falsy (empty) value generates and persists a fresh
UUID.  Returns the session id together with the updated browser state. -/
def getSessionId (b : Browser) (r : Nat → Fin 16) : String × Browser :=
  if b.hasWindow = false then ("", b)
  else
    match b.stored with
    | some s =>
      if s = "" then
        let u := generateUUID r
        (u, ⟨b.hasWindow, some u⟩)
      else (s, b)
    | none =>
      let u := generateUUID r
      (u, ⟨b.hasWindow, some u⟩)

theorem replaceXY_template (r : Nat → Fin 16) :
    replaceXY uuidTemplate r 0 =
      [hexDigit (r 0).val, hexDigit (r 1).val, hexDigit (r 2).val, hexDigit (r 3).val,
       hexDigit (r 4).val, hexDigit (r 5).val, hexDigit (r 6).val, hexDigit (r 7).val, '-',
       hexDigit (r 8).val, hexDigit (r 9).val, hexDigit (r 10).val, hexDigit (r 11).val, '-',
       '4', hexDigit (r 12).val, hexDigit (r 13).val, hexDigit (r 14).val, '-',
       hexDigit (variantVal (r 15).val), hexDigit (r 16).val, hexDigit (r 17).val,
       hexDigit (r 18).val, '-',
       hexDigit (r 19).val, hexDigit (r 20).val, hexDigit (r 21).val, hexDigit (r 22).val,
       hexDigit (r 23).val, hexDigit (r 24).val, hexDigit (r 25).val, hexDigit (r 26).val,
       hexDigit (r 27).val, hexDigit (r 28).val, hexDigit (r 29).val, hexDigit (r 30).val] := by
  have ht : uuidTemplate =
      ['x', 'x', 'x', 'x', 'x', 'x', 'x', 'x', '-', 'x', 'x', 'x', 'x', '-',
       '4', 'x', 'x', 'x', '-', 'y', 'x', 'x', 'x', '-',
       'x', 'x', 'x', 'x', 'x', 'x', 'x', 'x', 'x', 'x', 'x', 'x'] := by decide
  rw [ht]
  simp [replaceXY]

/-- The UUID v4 surface shape required of a session id: 36 characters,
hyphens at positions 8/13/18/23, version nibble `4` at position 14,
variant nibble at position 19 in {8, 9, a, b}. -/
def uuidShape (s : String) : Prop :=
  s.length = 36 ∧
  s.data.getD 8 ' ' = '-' ∧ s.data.getD 13 ' ' = '-' ∧
  s.data.getD 18 ' ' = '-' ∧ s.data.getD 23 ' ' = '-' ∧
  s.data.getD 14 ' ' = '4' ∧
  s.data.getD 19 ' ' ∈ ['8', '9', 'a', 'b']

theorem variant_mem (v : Fin 16) :
    hexDigit (variantVal v.val) ∈ ['8', '9', 'a', 'b'] := by
  fin_cases v <;> decide

theorem generateUUID_shape (r : Nat → Fin 16) : uuidShape (generateUUID r) := by
  have h : (generateUUID r).data = replaceXY uuidTemplate r 0 := rfl
  refine ⟨?_, ?_, ?_, ?_, ?_, ?_, ?_⟩ <;>
    simp only [uuidShape, String.length, h, replaceXY_template]
  · rfl
  · rfl
  · rfl
  · rfl
  · rfl
  · rfl
  · exact variant_mem (r 15)

theorem generateUUID_ne_empty (r : Nat → Fin 16) : generateUUID r ≠ "" := by
  intro h
  have h36 : (generateUUID r).length = 36 := (generateUUID_shape r).1
  rw [h] at h36
  exact absurd h36 (by decide)

/-- C7: within a browser context, `getSessionId` generates a UUID-v4-shaped
string on first call, persists it, and returns the same string on every
subsequent call; when `window` is undefined it returns the empty string. -/
theorem getSessionId_fresh_idempotent (r r' : Nat → Fin 16) :
    (∀ st, getSessionId ⟨false, st⟩ r = ("", ⟨false, st⟩)) ∧
    uuidShape (getSessionId ⟨true, none⟩ r).1 ∧
    (getSessionId ⟨true, none⟩ r).2 = ⟨true, some (getSessionId ⟨true, none⟩ r).1⟩ ∧
    getSessionId (getSessionId ⟨true, none⟩ r).2 r' =
      ((getSessionId ⟨true, none⟩ r).1, (getSessionId ⟨true, none⟩ r).2) := by
  have hfresh : getSessionId ⟨true, none⟩ r =
      (generateUUID r, ⟨true, some (generateUUID r)⟩) := by
    simp [getSessionId]
  refine ⟨fun st => by simp [getSessionId], ?_, ?_, ?_⟩
  · rw [hfresh]; exact generateUUID_shape r
  · rw [hfresh]
  · rw [hfresh]
    simp [getSessionId, generateUUID_ne_empty r]

/-! ## Client API module (src/frontend/lib/api.ts)

Each boundary function builds one HTTP request.  Requests are embedded
structurally: the URL query string `?session_id=${sessionId}` of
`listDocuments`/`deleteDocument` becomes the `queryParams` association
list, the multipart form of `uploadDocument` becomes `formFields`, and
the JSON bodies of `searchDocuments`/`queryDocuments` become
`bodyFields`.  Every function calls `getSessionId` itself, so the
builders take the browser state and the random stream. -/

inductive JsVal where
  | str (s : String)
  | int (n : Int)
  | rat (q : ℚ)
  deriving DecidableEq, Repr

structure ApiRequest where
  method : String
  path : String
  queryParams : List (String × String)
  formFields : List (String × String)
  bodyFields : List (String × JsVal)
  deriving DecidableEq, Repr

/-- `uploadDocument`: POST /rag/documents with multipart form
`file`, `session_id`.  The file object is abstracted as its
serialized contents. -/
def uploadDocument (file : String) (b : Browser) (r : Nat → Fin 16) : ApiRequest :=
  { method := "POST", path := "/rag/documents", queryParams := [],
    formFields := [("file", file), ("session_id", (getSessionId b r).1)],
    bodyFields := [] }

/-- `listDocuments`: GET /rag/documents?session_id=... -/
def listDocuments (b : Browser) (r : Nat → Fin 16) : ApiRequest :=
  { method := "GET", path := "/rag/documents",
    queryParams := [("session_id", (getSessionId b r).1)],
    formFields := [], bodyFields := [] }

/-- `deleteDocument`: DELETE /rag/documents/{id}?session_id=... -/
def deleteDocument (id : String) (b : Browser) (r : Nat → Fin 16) : ApiRequest :=
  { method := "DELETE", path := "/rag/documents/" ++ id,
    queryParams := [("session_id", (getSessionId b r).1)],
    formFields := [], bodyFields := [] }

/-- Default `topK` of `searchDocuments` (source: `topK: number = 10`). -/
def defaultSearchTopK : Int := 10

/-- Default `scoreThreshold` of `searchDocuments`
(source: `scoreThreshold: number = 0.5`). -/
def defaultScoreThreshold : ℚ := 1 / 2

/-- Default `topK` of `queryDocuments` (source: `topK: number = 5`). -/
def defaultQueryTopK : Int := 5

/-- `searchDocuments`: POST /rag/search with JSON body
`query`, `session_id`, `top_k`, `score_threshold`. -/
def searchDocuments (query : String) (topK : Int) (scoreThreshold : ℚ)
    (b : Browser) (r : Nat → Fin 16) : ApiRequest :=
  { method := "POST", path := "/rag/search", queryParams := [], formFields := [],
    bodyFields := [("query", .str query), ("session_id", .str (getSessionId b r).1),
                   ("top_k", .int topK), ("score_threshold", .rat scoreThreshold)] }

/-- `queryDocuments`: POST /rag/query with JSON body
`question`, `session_id`, `top_k`. -/
def queryDocuments (question : String) (topK : Int)
    (b : Browser) (r : Nat → Fin 16) : ApiRequest :=
  { method := "POST", path := "/rag/query", queryParams := [], formFields := [],
    bodyFields := [("question", .str question), ("session_id", .str (getSessionId b r).1),
                   ("top_k", .int topK)] }

/-- C1: every boundary operation of the client API module carries the
session identifier obtained from `getSessionId` — as a form field
(upload), a query parameter (list, delete), or a body field
(search, query). -/
theorem boundary_requests_carry_session_id (b : Browser) (r : Nat → Fin 16) :
    (∀ file, ("session_id", (getSessionId b r).1) ∈ (uploadDocument file b r).formFields) ∧
    ("session_id", (getSessionId b r).1) ∈ (listDocuments b r).queryParams ∧
    (∀ id, ("session_id", (getSessionId b r).1) ∈ (deleteDocument id b r).queryParams) ∧
    (∀ q k t, ("session_id", JsVal.str (getSessionId b r).1) ∈
      (searchDocuments q k t b r).bodyFields) ∧
    (∀ q k, ("session_id", JsVal.str (getSessionId b r).1) ∈
      (queryDocuments q k b r).bodyFields) := by
  refine ⟨fun file => ?_, ?_, fun id => ?_, fun q k t => ?_, fun q k => ?_⟩ <;>
    simp [uploadDocument, listDocuments, deleteDocument, searchDocuments, queryDocuments]

/-! ## Retrieval Engine (modelled from the spec, §4.3)

The repository ships only the frontend; the Retrieval Engine itself is
not in the source tree, so it is modelled from the specification. -/

/-- Error taxonomy of the spec (§7). -/
inductive RagError where
  | validationError
  | notFoundError
  | parseError
  | generationError
  deriving DecidableEq, Repr

/-- A chunk as stored in the Vector Index together with the similarity
score the index reports for the current query and the owning document's
recency.  Embedding the query and nearest-neighbour scoring are
abstracted into the `score` field. -/
structure IndexedChunk where
  chunk_id : String
  document_id : String
  filename : String
  text : String
  score : ℚ
  chunk_index : Nat
  created_at : Int
  session_id : String
  deriving DecidableEq, Repr

/-- The shared sample partition visible to every session. -/
def samplePartition : String := "sample"

/-- Modelled from the spec: the ranking order of §4.3 — descending by
score, ties broken by document recency (`created_at` descending) then
`chunk_index` ascending.  `rankLE a b` means `a` may come before `b`. -/
def rankLE (a b : IndexedChunk) : Bool :=
  decide (b.score < a.score ∨
    (a.score = b.score ∧
      (b.created_at < a.created_at ∨
        (a.created_at = b.created_at ∧ a.chunk_index ≤ b.chunk_index))))

/-- Modelled from the spec: `search(query, session_id, top_k,
score_threshold)` of §4.3, absent from src (frontend-only repository).
Validates the edge policy (`top_k <= 0` and `score_threshold` outside
`[0,1]` are `ValidationError`), restricts the index to the union of the
caller's partition and the sample partition, drops results below the
threshold, sorts by `rankLE` and truncates to `top_k`. -/
def search (index : List IndexedChunk) (query session_id : String)
    (top_k : Int) (score_threshold : ℚ) : Except RagError (List IndexedChunk) :=
  if top_k ≤ 0 then .error .validationError
  else if score_threshold < 0 ∨ 1 < score_threshold then .error .validationError
  else
    let inScope := index.filter fun c =>
      c.session_id == session_id || c.session_id == samplePartition
    let kept := inScope.filter fun c => decide (score_threshold ≤ c.score)
    .ok ((kept.mergeSort rankLE).take top_k.toNat)

theorem rankLE_trans (a b c : IndexedChunk) :
    rankLE a b = true → rankLE b c = true → rankLE a c = true := by
  simp only [rankLE, decide_eq_true_eq]
  rintro (h1 | ⟨hs1, h1⟩) (h2 | ⟨hs2, h2⟩)
  · exact Or.inl (h2.trans h1)
  · exact Or.inl (hs2 ▸ h1)
  · exact Or.inl (hs1 ▸ h2)
  · refine Or.inr ⟨hs1.trans hs2, ?_⟩
    rcases h1 with h1 | ⟨hc1, h1⟩ <;> rcases h2 with h2 | ⟨hc2, h2⟩
    · exact Or.inl (h2.trans h1)
    · exact Or.inl (hc2 ▸ h1)
    · exact Or.inl (hc1 ▸ h2)
    · exact Or.inr ⟨hc1.trans hc2, h1.trans h2⟩

theorem rankLE_total (a b : IndexedChunk) : rankLE a b || rankLE b a := by
  simp only [rankLE, Bool.or_eq_true, decide_eq_true_eq]
  rcases lt_trichotomy a.score b.score with h | h | h
  · exact Or.inr (Or.inl h)
  · rcases lt_trichotomy a.created_at b.created_at with hc | hc | hc
    · exact Or.inr (Or.inr ⟨h.symm, Or.inl hc⟩)
    · rcases Nat.le_total a.chunk_index b.chunk_index with hi | hi
      · exact Or.inl (Or.inr ⟨h, Or.inr ⟨hc, hi⟩⟩)
      · exact Or.inr (Or.inr ⟨h.symm, Or.inr ⟨hc.symm, hi⟩⟩)
    · exact Or.inl (Or.inr ⟨h, Or.inl hc⟩)
  · exact Or.inl (Or.inl h)

/-- C3: every successful `search` returns only results at or above the
score threshold, sorted by descending score with ties broken by document
recency then chunk index, and at most `top_k` of them. -/
theorem search_threshold_sorted_truncated (index : List IndexedChunk)
    (query session_id : String) (top_k : Int) (score_threshold : ℚ)
    (out : List IndexedChunk)
    (h : search index query session_id top_k score_threshold = .ok out) :
    (∀ c ∈ out, score_threshold ≤ c.score) ∧
    out.Pairwise (fun a b => rankLE a b = true) ∧
    (out.length : Int) ≤ top_k := by
  unfold search at h
  split at h
  · exact Except.noConfusion h
  · split at h
    · exact Except.noConfusion h
    · rename_i hk _
      simp only [Except.ok.injEq] at h
      subst h
      refine ⟨?_, ?_, ?_⟩
      · intro c hc
        have hmem := List.mem_mergeSort.mp (List.mem_of_mem_take hc)
        have := List.of_mem_filter hmem
        exact of_decide_eq_true this
      · exact List.Pairwise.sublist (List.take_sublist _ _)
          (List.sorted_mergeSort rankLE_trans rankLE_total _)
      · rw [List.length_take]
        omega

/-- A concrete chunk used to instantiate hypotheses of the theorems. -/
def sampleChunk : IndexedChunk :=
  ⟨"c1", "d1", "notes.txt", "hello", 1, 0, 0, "s"⟩

theorem search_threshold_sorted_truncated_witness :
    (([sampleChunk].length : Int) ≤ 1) :=
  (search_threshold_sorted_truncated [sampleChunk] "q" "s" 1 0 [sampleChunk] (by
    unfold search
    rw [if_neg (by norm_num), if_neg (by norm_num)]
    simp [sampleChunk, samplePartition])).2.2

/-- C8: the client's default parameters (`top_k = 10` for search,
`top_k = 5` for query, `score_threshold = 0.5`) satisfy the retrieval
edge policy — `top_k > 0` and `score_threshold ∈ [0,1]` — so the
`ValidationError` branch is unreachable for default-parameter calls. -/
theorem default_params_pass_edge_policy :
    defaultSearchTopK = 10 ∧ defaultQueryTopK = 5 ∧ defaultScoreThreshold = 1 / 2 ∧
    0 < defaultSearchTopK ∧ 0 < defaultQueryTopK ∧
    0 ≤ defaultScoreThreshold ∧ defaultScoreThreshold ≤ 1 ∧
    (∀ q b r, ("top_k", JsVal.int 10) ∈
        (searchDocuments q defaultSearchTopK defaultScoreThreshold b r).bodyFields ∧
      ("score_threshold", JsVal.rat (1 / 2)) ∈
        (searchDocuments q defaultSearchTopK defaultScoreThreshold b r).bodyFields) ∧
    (∀ q b r, ("top_k", JsVal.int 5) ∈
        (queryDocuments q defaultQueryTopK b r).bodyFields) ∧
    (∀ index q sid e,
      search index q sid defaultSearchTopK defaultScoreThreshold ≠ .error e) ∧
    (∀ index q sid e,
      search index q sid defaultQueryTopK defaultScoreThreshold ≠ .error e) := by
  refine ⟨rfl, rfl, rfl, by decide, by decide, by norm_num [defaultScoreThreshold],
    by norm_num [defaultScoreThreshold], ?_, ?_, ?_, ?_⟩
  · intro q b r
    constructor <;> simp [searchDocuments, defaultSearchTopK, defaultScoreThreshold]
  · intro q b r
    simp [queryDocuments, defaultQueryTopK]
  · intro index q sid e
    unfold search
    rw [if_neg (by norm_num [defaultSearchTopK]),
      if_neg (by norm_num [defaultScoreThreshold])]
    simp
  · intro index q sid e
    unfold search
    rw [if_neg (by norm_num [defaultQueryTopK]),
      if_neg (by norm_num [defaultScoreThreshold])]
    simp

theorem default_params_pass_edge_policy_witness :
    search [sampleChunk] "q" "s" defaultSearchTopK defaultScoreThreshold ≠
      Except.error RagError.validationError :=
  default_params_pass_edge_policy.2.2.2.2.2.2.2.2.2.1 [sampleChunk] "q" "s"
    RagError.validationError

/-! ## Document model and Ingestion Pipeline (modelled from the spec, §3, §4.1)

The Ingestion Pipeline and Document Store are not in the source tree
(frontend-only repository); their state machine is modelled from the
specification. -/

inductive DocStatus where
  | pending
  | processing
  | indexed
  | failed
  deriving DecidableEq, Repr

/-- The Document record of §3 / the `Document` interface of api.ts. -/
structure DocumentRec where
  id : String
  filename : String
  content_type : String
  file_size : Nat
  status : DocStatus
  chunk_count : Nat
  error_message : Option String
  is_sample : Bool
  session_id : String
  created_at : String
  updated_at : String
  deriving DecidableEq, Repr

/-- Content types accepted by the Ingestion Pipeline (spec §4.1). -/
def supportedContentTypes : List String := ["pdf", "txt", "markdown"]

/-- Modelled from the spec: the synchronous accept path of
`ingest(file bytes, filename, content_type, session_id)` (§4.1), absent
from src.  Validates the content type and rejects zero-length files with
a `ValidationError` before any record is created; otherwise creates the
Document row in `pending`. -/
def ingest (fileBytes : List Nat) (filename content_type session_id : String)
    (id timestamp : String) : Except RagError DocumentRec :=
  if (supportedContentTypes.contains content_type) = false then .error .validationError
  else if fileBytes.length = 0 then .error .validationError
  else .ok ⟨id, filename, content_type, fileBytes.length, .pending, 0, none,
    false, session_id, timestamp, timestamp⟩

/-- The `accept` option of the upload widget's `useDropzone` call
(UploadZone component): MIME type to allowed extensions. -/
def uploadZoneAccept : List (String × List String) :=
  [("text/plain", [".txt"]), ("text/markdown", [".md"]), ("application/pdf", [".pdf"])]

/-- C4: ingestion rejects unsupported content types and zero-length
files with a `ValidationError` and creates no Document record (the
`Except.error` result carries no record); the upload widget accepts
exactly the MIME types text/plain, text/markdown, application/pdf. -/
theorem upload_validation (fileBytes : List Nat)
    (filename content_type session_id id timestamp : String)
    (h : content_type ∉ supportedContentTypes ∨ fileBytes.length = 0) :
    ingest fileBytes filename content_type session_id id timestamp =
      .error .validationError ∧
    uploadZoneAccept.map Prod.fst = ["text/plain", "text/markdown", "application/pdf"] := by
  refine ⟨?_, rfl⟩
  rcases h with h | h
  · simp [ingest, h]
  · have hb : fileBytes = [] := List.length_eq_zero.mp h
    subst hb
    simp [ingest]

theorem upload_validation_witness :
    ingest [] "empty.pdf" "pdf" "sess" "doc-1" "t0" = .error .validationError ∧
    uploadZoneAccept.map Prod.fst = ["text/plain", "text/markdown", "application/pdf"] :=
  upload_validation [] "empty.pdf" "pdf" "sess" "doc-1" "t0" (Or.inr rfl)

/-- The boundary-visible lifecycle state of one document: its status
fields plus the chunk indices present for it in the Vector Index. -/
structure DocLifecycle where
  status : DocStatus
  chunk_count : Nat
  error_message : Option String
  indexEntries : List Nat
  deriving DecidableEq, Repr

/-- Modelled from the spec: the §4.1 state machine, absent from src.
`pending → processing → indexed | failed`; the pipeline body upserts
chunk vectors while `processing`; success atomically sets
`status=indexed, chunk_count=N` once chunks `0..N-1` are all upserted
(zero extracted chunks is a failure, so `N > 0`); failure records a
human-readable `error_message` and cleans up any partial chunks; a
re-upload restarts at `pending` after deleting prior chunks. -/
inductive IngestStep : DocLifecycle → DocLifecycle → Prop where
  | start (s : DocLifecycle) (h : s.status = .pending) :
      IngestStep s ⟨.processing, s.chunk_count, s.error_message, s.indexEntries⟩
  | upsert (s : DocLifecycle) (i : Nat) (h : s.status = .processing) :
      IngestStep s ⟨.processing, s.chunk_count, s.error_message, s.indexEntries ++ [i]⟩
  | succeed (s : DocLifecycle) (n : Nat) (hn : 0 < n) (h : s.status = .processing)
      (he : s.indexEntries = List.range n) :
      IngestStep s ⟨.indexed, n, s.error_message, s.indexEntries⟩
  | fail (s : DocLifecycle) (msg : String) (hm : msg ≠ "") (h : s.status = .processing) :
      IngestStep s ⟨.failed, s.chunk_count, some msg, []⟩
  | reupload (s : DocLifecycle) (h : s.status = .indexed ∨ s.status = .failed) :
      IngestStep s ⟨.pending, 0, none, []⟩

/-- Lifecycle states reachable from the accept path, which creates the
row as `pending` with `chunk_count = 0`, no error and no chunks. -/
inductive ReachableDoc : DocLifecycle → Prop where
  | accepted : ReachableDoc ⟨.pending, 0, none, []⟩
  | step {s t : DocLifecycle} : ReachableDoc s → IngestStep s t → ReachableDoc t

/-- C2: in every reachable lifecycle state, `chunk_count > 0` iff
`status = indexed`, `error_message` is set iff `status = failed`, and
an indexed document's chunk indices are exactly `0..chunk_count-1`,
without gaps or duplicates. -/
theorem document_invariant (s : DocLifecycle) (h : ReachableDoc s) :
    (0 < s.chunk_count ↔ s.status = .indexed) ∧
    (s.error_message ≠ none ↔ s.status = .failed) ∧
    (s.status = .indexed →
      s.indexEntries = List.range s.chunk_count ∧ s.indexEntries.Nodup ∧
      ∀ i, i ∈ s.indexEntries ↔ i < s.chunk_count) := by
  induction h with
  | accepted => exact ⟨by simp, by simp, by simp⟩
  | step hr hstep ih =>
    rename_i u v
    obtain ⟨ih1, ih2, ih3⟩ := ih
    cases hstep with
    | start h =>
      have hni : u.status ≠ .indexed := by rw [h]; decide
      have hnf : u.status ≠ .failed := by rw [h]; decide
      have hcc : ¬ 0 < u.chunk_count := fun hx => hni (ih1.mp hx)
      have herr : u.error_message = none := by
        by_contra hx; exact hnf (ih2.mp hx)
      exact ⟨by simpa using hcc, by simp [herr], by simp⟩
    | upsert i h =>
      have hni : u.status ≠ .indexed := by rw [h]; decide
      have hnf : u.status ≠ .failed := by rw [h]; decide
      have hcc : ¬ 0 < u.chunk_count := fun hx => hni (ih1.mp hx)
      have herr : u.error_message = none := by
        by_contra hx; exact hnf (ih2.mp hx)
      exact ⟨by simpa using hcc, by simp [herr], by simp⟩
    | succeed n hn h he =>
      have hnf : u.status ≠ .failed := by rw [h]; decide
      have herr : u.error_message = none := by
        by_contra hx; exact hnf (ih2.mp hx)
      refine ⟨by simpa using hn, by simp [herr], ?_⟩
      intro _
      refine ⟨by simpa using he, ?_, ?_⟩
      · simp only []
        rw [he]; exact List.nodup_range n
      · intro i
        simp only []
        rw [he]; simp [List.mem_range]
    | fail msg hm h =>
      have hni : u.status ≠ .indexed := by rw [h]; decide
      have hcc : ¬ 0 < u.chunk_count := fun hx => hni (ih1.mp hx)
      exact ⟨by simpa using hcc, by simp, by simp⟩
    | reupload h =>
      exact ⟨by simp, by simp, by simp⟩

theorem document_invariant_witness :
    (0 < 2 ↔ DocStatus.indexed = DocStatus.indexed) :=
  (document_invariant ⟨.indexed, 2, none, [0, 1]⟩
    (ReachableDoc.step
      (ReachableDoc.step
        (ReachableDoc.step
          (ReachableDoc.step ReachableDoc.accepted (IngestStep.start _ rfl))
          (IngestStep.upsert _ 0 rfl))
        (IngestStep.upsert _ 1 rfl))
      (IngestStep.succeed _ 2 (by decide) rfl (by decide)))).1

/-! ## Chat page (src/unnamed/part_001) and chat input (src/unnamed/part_004)

`handleSendMessage` is embedded as a pure function over the message
list: the two `setMessages` updates of a branch are composed, the
`Date.now()`-derived message ids become parameters, and the awaited
result of `queryDocuments` becomes an `Except` parameter.  The returned
Bool records whether `queryMutation.mutateAsync` was invoked. -/

inductive Role where
  | user
  | assistant
  deriving DecidableEq, Repr

/-- The `SearchResult` interface of api.ts. -/
structure SearchResultRec where
  chunk_id : String
  document_id : String
  filename : String
  text : String
  score : ℚ
  chunk_index : Nat
  deriving DecidableEq, Repr

/-- The `QueryResponse` interface of api.ts. -/
structure QueryResponseRec where
  question : String
  answer : String
  sources : List SearchResultRec
  deriving DecidableEq, Repr

/-- A chat message of the ChatArea component. -/
structure Message where
  id : String
  role : Role
  content : String
  sources : Option (List SearchResultRec)
  isLoading : Bool
  error : Option String
  deriving DecidableEq, Repr

/-- The rejection value of `queryDocuments`: `responseError` models the
optional chain `error.response?.data?.error`. -/
structure JsError where
  responseError : Option String
  deriving DecidableEq, Repr

def fallbackErrorText : String := "Failed to get an answer. Please try again."

def noDocumentsText : String :=
  "Please upload and index some documents first before asking questions. You can upload documents using the panel on the right."

/-- JavaScript `a || d` for an optional string `a`: falls back on a
missing value and on the falsy empty string. -/
def jsOrElse (o : Option String) (d : String) : String :=
  match o with
  | some s => if s = "" then d else s
  | none => d

/-- `documents.some(d => d.status === 'indexed')`. -/
def hasDocuments (docs : List DocumentRec) : Bool :=
  docs.any fun d => d.status == DocStatus.indexed

/-- `handleSendMessage`: appends the user message; without an indexed
document, appends the fixed assistant notice and returns; otherwise
appends a loading assistant message, awaits the query, and rewrites the
assistant message with the answer and sources (success) or an error
text (failure). -/
def handleSendMessage (docs : List DocumentRec) (prev : List Message)
    (content uid aid : String) (outcome : Except JsError QueryResponseRec) :
    List Message × Bool :=
  let afterUser := prev ++ [⟨uid, .user, content, none, false, none⟩]
  if hasDocuments docs = false then
    (afterUser ++ [⟨aid, .assistant, noDocumentsText, none, false, none⟩], false)
  else
    let afterLoading := afterUser ++ [⟨aid, .assistant, "", none, true, none⟩]
    match outcome with
    | .ok data =>
      (afterLoading.map fun m =>
        if m.id = aid then
          { m with isLoading := false, content := data.answer, sources := some data.sources }
        else m, true)
    | .error e =>
      (afterLoading.map fun m =>
        if m.id = aid then
          { m with isLoading := false, error := some (jsOrElse e.responseError fallbackErrorText) }
        else m, true)

theorem map_update_of_id_not_mem (aid : String) (f : Message → Message)
    (l : List Message) (h : ∀ m ∈ l, m.id ≠ aid) :
    (l.map fun m => if m.id = aid then f m else m) = l := by
  induction l with
  | nil => rfl
  | cons x xs ih =>
    simp only [List.map_cons]
    rw [if_neg (h x (by simp)), ih fun m hm => h m (by simp [hm])]

/-- C9: when no listed document has status `indexed`,
`handleSendMessage` appends exactly the user message and the fixed
"upload documents first" assistant message, and does not invoke
`queryDocuments` (second component `false`). -/
theorem no_indexed_docs_no_query (docs : List DocumentRec) (prev : List Message)
    (content uid aid : String) (outcome : Except JsError QueryResponseRec)
    (h : ∀ d ∈ docs, d.status ≠ .indexed) :
    handleSendMessage docs prev content uid aid outcome =
      (prev ++ [⟨uid, .user, content, none, false, none⟩,
                ⟨aid, .assistant, noDocumentsText, none, false, none⟩], false) := by
  have hd : hasDocuments docs = false := by
    rw [hasDocuments, List.any_eq_false]
    intro d hdm
    simpa using h d hdm
  simp [handleSendMessage, hd]

theorem no_indexed_docs_no_query_witness :
    handleSendMessage [] [] "hi" "user-1" "assistant-1"
        (.ok ⟨"hi", "ans", []⟩) =
      ([⟨"user-1", .user, "hi", none, false, none⟩,
        ⟨"assistant-1", .assistant, noDocumentsText, none, false, none⟩], false) :=
  no_indexed_docs_no_query [] [] "hi" "user-1" "assistant-1"
    (.ok ⟨"hi", "ans", []⟩) (by simp)

/-- A concrete indexed document, used to instantiate hypotheses. -/
def sampleIndexedDoc : DocumentRec :=
  ⟨"d1", "notes.txt", "txt", 5, .indexed, 1, none, false, "s", "t0", "t1"⟩

/-- C5: when `queryDocuments` resolves, the assistant message is
rewritten with content exactly the response's answer and sources exactly
the response's source list, and no other message changes. -/
theorem query_success_updates_only_assistant (docs : List DocumentRec)
    (prev : List Message) (content uid aid : String) (data : QueryResponseRec)
    (hdocs : hasDocuments docs = true)
    (hprev : ∀ m ∈ prev, m.id ≠ aid) (huid : uid ≠ aid) :
    handleSendMessage docs prev content uid aid (.ok data) =
      (prev ++ [⟨uid, .user, content, none, false, none⟩,
                ⟨aid, .assistant, data.answer, some data.sources, false, none⟩],
        true) := by
  have hmap := map_update_of_id_not_mem aid
    (fun m => { m with isLoading := false, content := data.answer, sources := some data.sources })
    prev hprev
  unfold handleSendMessage
  rw [hdocs, if_neg (by decide)]
  simp only [List.map_append, hmap, List.map_cons, List.map_nil,
    if_neg huid, if_pos rfl, if_true, eq_self_iff_true, List.append_assoc,
    List.cons_append, List.nil_append]

theorem query_success_updates_only_assistant_witness :
    handleSendMessage [sampleIndexedDoc] [] "q" "user-1" "assistant-1"
        (.ok ⟨"q", "ans", []⟩) =
      ([⟨"user-1", .user, "q", none, false, none⟩,
        ⟨"assistant-1", .assistant, "ans", some [], false, none⟩], true) :=
  query_success_updates_only_assistant [sampleIndexedDoc] [] "q" "user-1"
    "assistant-1" ⟨"q", "ans", []⟩ (by decide) (by simp) (by decide)

/-- C6 (amended): when `queryDocuments` rejects, the pending assistant
message keeps empty content and no sources, its loading flag is
cleared, and it carries an error text — the response's error field when
that field is present AND non-empty, otherwise the fixed fallback — and
no other message changes. -/
theorem query_failure_marks_error (docs : List DocumentRec)
    (prev : List Message) (content uid aid : String) (e : JsError)
    (hdocs : hasDocuments docs = true)
    (hprev : ∀ m ∈ prev, m.id ≠ aid) (huid : uid ≠ aid) :
    handleSendMessage docs prev content uid aid (.error e) =
      (prev ++ [⟨uid, .user, content, none, false, none⟩,
                ⟨aid, .assistant, "", none, false,
                  some (jsOrElse e.responseError fallbackErrorText)⟩], true) ∧
    (∀ s, s ≠ "" → jsOrElse (some s) fallbackErrorText = s) ∧
    jsOrElse none fallbackErrorText = fallbackErrorText ∧
    jsOrElse (some "") fallbackErrorText = fallbackErrorText := by
  refine ⟨?_, fun s hs => by simp [jsOrElse, hs], rfl, rfl⟩
  have hmap := map_update_of_id_not_mem aid
    (fun m => { m with isLoading := false, error := some (jsOrElse e.responseError fallbackErrorText) })
    prev hprev
  unfold handleSendMessage
  rw [hdocs, if_neg (by decide)]
  simp only [List.map_append, hmap, List.map_cons, List.map_nil,
    if_neg huid, if_pos rfl, if_true, eq_self_iff_true, List.append_assoc,
    List.cons_append, List.nil_append]

theorem query_failure_marks_error_witness :
    handleSendMessage [sampleIndexedDoc] [] "q" "user-1" "assistant-1"
        (.error ⟨none⟩) =
      ([⟨"user-1", .user, "q", none, false, none⟩,
        ⟨"assistant-1", .assistant, "", none, false,
          some (jsOrElse none fallbackErrorText)⟩], true) :=
  (query_failure_marks_error [sampleIndexedDoc] [] "q" "user-1" "assistant-1"
    ⟨none⟩ (by decide) (by simp) (by decide)).1

def dummyMessage : Message := ⟨"", .user, "", none, false, none⟩

/-- C6 counterexample: the claim as stated uses the response's error
field whenever it is present; but for a present-but-empty error field
the code falls back to the fixed text (JavaScript `||` treats `""` as
falsy), so the assistant message does not carry the server's error
field `""`. -/
theorem query_failure_empty_error_field_counterexample :
    ((handleSendMessage [sampleIndexedDoc] [] "q" "user-1" "assistant-1"
        (.error ⟨some ""⟩)).1.getD 1 dummyMessage).error ≠ some "" ∧
    ((handleSendMessage [sampleIndexedDoc] [] "q" "user-1" "assistant-1"
        (.error ⟨some ""⟩)).1.getD 1 dummyMessage).error =
      some fallbackErrorText := by
  constructor <;> decide

/-- JavaScript `String.prototype.trim`: strips leading and trailing
whitespace.  Defined structurally on the character list (the library
`String.trim` is not kernel-reducible). -/
def jsTrim (s : String) : String :=
  String.mk (((s.data.dropWhile Char.isWhitespace).reverse.dropWhile
    Char.isWhitespace).reverse)

/-- `handleSend` of the ChatInput component: fires `onSend` with the
trimmed value and clears the field when the trimmed value is truthy
(non-empty) and the component is neither disabled nor loading;
otherwise it does nothing.  The first component is the message passed
to `onSend` (if any), the second the input field afterwards. -/
def handleSend (value : String) (disabled isLoading : Bool) :
    Option String × String :=
  if !(jsTrim value == "") && !disabled && !isLoading then (some (jsTrim value), "")
  else (none, value)

/-- C10: `onSend` fires exactly when the trimmed input is non-empty and
the component is neither disabled nor loading; the sent message is the
trimmed input and the field is reset — a whitespace-only input is never
submitted. -/
theorem chat_input_send (value : String) (disabled isLoading : Bool) :
    (handleSend value disabled isLoading = (some (jsTrim value), "") ↔
      (jsTrim value ≠ "" ∧ disabled = false ∧ isLoading = false)) ∧
    ((handleSend value disabled isLoading).1 ≠ none →
      handleSend value disabled isLoading = (some (jsTrim value), "")) ∧
    (jsTrim value = "" → handleSend value disabled isLoading = (none, value)) := by
  by_cases hc : (!(jsTrim value == "") && !disabled && !isLoading) = true
  · have hparts := hc
    simp only [Bool.and_eq_true, Bool.not_eq_true', beq_eq_false_iff_ne] at hparts
    refine ⟨?_, ?_, ?_⟩
    · simp [handleSend, hc, hparts.1.1, hparts.1.2, hparts.2]
    · intro _; simp [handleSend, hc]
    · intro hv; exact absurd hv hparts.1.1
  · have hne : handleSend value disabled isLoading = (none, value) := by
      simp [handleSend, hc]
    refine ⟨?_, ?_, fun _ => hne⟩
    · rw [hne]
      constructor
      · intro hx; exact absurd hx (by simp)
      · rintro ⟨h1, h2, h3⟩
        exact absurd (by simp [h1, h2, h3] : (!(jsTrim value == "") && !disabled && !isLoading) = true) hc
    · rw [hne]; intro hx; exact absurd rfl hx

theorem chat_input_send_witness :
    handleSend " hi " false false = (some (jsTrim " hi "), "") :=
  (chat_input_send " hi " false false).1.mpr ⟨by decide, rfl, rfl⟩

end StandardRag
